import Mathlib

/-!
Verification development for the Zelf Legacy backend (conditional time-locked
escrow on Solana).  The repository contains the Node.js backend (routes for
creating, executing and cancelling an inheritance vault, a liveness-status
reader, and a cron scanner) together with the Anchor program's test suite.
The Anchor (Rust) program itself is not part of the repository sources, so the
on-chain state machine is modelled from the specification; everything the
backend and the test suite compute is translated directly from the JavaScript
and TypeScript sources.
-/

namespace ZelfLegacy

/-! ## Mixing digest (demo hash)

Translated from the TypeScript mirror `demoHash` in the Anchor test suite:
a 32-byte accumulator, and for the byte at position `i` the slot `i % 32` is
updated with `val = (hash[idx] + byte) & 0xFF`,
`val = ((val << 3) | (val >> 5)) & 0xFF`, `val = val ^ 0x55`. -/

def demoHashStep (hash : List Nat) (idx byte : Nat) : List Nat :=
  let v1 := (hash.getD idx 0 + byte) &&& 0xFF
  let v2 := ((v1 <<< 3) ||| (v1 >>> 5)) &&& 0xFF
  hash.set idx (v2 ^^^ 0x55)

def demoHash (data : List Nat) : List Nat :=
  data.enum.foldl (fun h p => demoHashStep h (p.1 % 32) p.2) (List.replicate 32 0)

/-- Little-endian 8-byte two's-complement encoding of an `i64`, as written by
`Buffer.writeBigInt64LE` in the test suite and the backend. -/
def int64LEBytes (n : Int) : List Nat :=
  (List.range 8).map fun i => ((n % (2 : Int) ^ 64).toNat >>> (8 * i)) &&& 0xFF

/-- The liveness leaf, as computed in the test suite: the demo hash of the
testator's 32 public-key bytes followed by `last_ping` as 8 little-endian
bytes. -/
def livenessLeaf (testator : List Nat) (lastPing : Int) : List Nat :=
  demoHash (testator ++ int64LEBytes lastPing)

/-! Specification-side formulation of the same digest, written from the
claim's words: `accumulator[slot] := rotate_left((accumulator[slot] + byte)
mod 256, 3) XOR 0x55`. -/

/-- 8-bit rotate left by 3 of a value below 256. -/
def rotl3 (v : Nat) : Nat := v * 8 % 256 + v / 32

def mixStepSpec (hash : List Nat) (idx byte : Nat) : List Nat :=
  hash.set idx (rotl3 ((hash.getD idx 0 + byte) % 256) ^^^ 0x55)

def mixingDigestSpec (data : List Nat) : List Nat :=
  data.enum.foldl (fun h p => mixStepSpec h (p.1 % 32) p.2) (List.replicate 32 0)

theorem and_255_eq_mod (n : Nat) : n &&& 255 = n % 256 := by
  simpa using Nat.and_pow_two_sub_one_eq_mod n 8

set_option maxRecDepth 4096 in
theorem shift_or_eq_rotl3 : ∀ v < 256, ((v <<< 3) ||| (v >>> 5)) &&& 255 = rotl3 v := by
  decide

theorem demoHashStep_eq_mixStepSpec (hash : List Nat) (idx byte : Nat) :
    demoHashStep hash idx byte = mixStepSpec hash idx byte := by
  simp only [demoHashStep, mixStepSpec]
  have hA : (hash.getD idx 0 + byte) &&& 0xFF = (hash.getD idx 0 + byte) % 256 :=
    and_255_eq_mod _
  rw [hA, shift_or_eq_rotl3 _ (Nat.mod_lt _ (by norm_num))]

/-- **C5**: for every byte sequence, the demo hash computed by the code equals
the 32-byte accumulator described by the specification (starting from all
zeros and setting `accumulator[i % 32] := rotate_left((acc + byte) mod 256, 3)
XOR 0x55` for each byte), and the liveness leaf is this digest applied to
`testator_identity ‖ little_endian_64(last_liveness_at)`. -/
theorem mixing_digest_spec_correct (data testator : List Nat) (lastPing : Int) :
    demoHash data = mixingDigestSpec data ∧
    livenessLeaf testator lastPing =
      mixingDigestSpec (testator ++ int64LEBytes lastPing) := by
  have hfold : ∀ l : List Nat, demoHash l = mixingDigestSpec l := by
    intro l
    unfold demoHash mixingDigestSpec
    congr 1
    funext h p
    exact demoHashStep_eq_mixStepSpec h (p.1 % 32) p.2
  exact ⟨hfold data, hfold _⟩

/-! ## Escrow state machine -/

/-- The stable machine-matchable error codes of the escrow program (§7 of the
specification). -/
inductive EscrowError
  | AlreadyExists
  | Unauthorized
  | InvalidVerifier
  | InvalidLivenessRoot
  | TransitionNotAllowed
  | AlreadyExecuted
  | NoAssets
deriving DecidableEq, Repr

/-- Modelled from the spec: the on-chain Anchor program (`lib.rs`) is not among
the repository sources, only its test suite and the backend callers are; the
`EscrowRecord` (vault) fields follow §3 of the specification.  Identities are
32-byte public keys, timestamps and timeouts are `i64` seconds. -/
structure EscrowRecord where
  testator : List Nat
  beneficiary : List Nat
  verifier : List Nat
  warningTimeout : Int
  totalTimeout : Int
  depositedValue : Nat
  lastLivenessAt : Int
  createdAt : Int
  livenessRoot : Option (List Nat)
  executed : Bool
  debugMode : Bool
deriving DecidableEq, Repr

/-- Modelled from the spec: `execute(transfer_funds)` — the Anchor program is
absent from the sources.  Per §2 the AuthorizationGuard runs first (both the
beneficiary and the verifier must sign, and the supplied verifier identity
must equal the record's stored `verifier`, §4.3), then the state-machine
guards in the order of §4.1: `executed == false` else `AlreadyExecuted`,
`now − last_liveness_at > total_timeout` else `TransitionNotAllowed`, and for
`transfer_funds` a non-zero `deposited_value` else `NoAssets`.  On success the
whole deposit moves to the beneficiary and `executed` is set. -/
def executeInheritance (r : EscrowRecord) (beneficiarySigned verifierSigned : Bool)
    (suppliedVerifier : List Nat) (transferFunds : Bool) (now : Int) :
    Except EscrowError EscrowRecord :=
  if !(beneficiarySigned && verifierSigned) then .error .Unauthorized
  else if suppliedVerifier ≠ r.verifier then .error .InvalidVerifier
  else if r.executed then .error .AlreadyExecuted
  else if now - r.lastLivenessAt ≤ r.totalTimeout then .error .TransitionNotAllowed
  else if transferFunds && r.depositedValue == 0 then .error .NoAssets
  else .ok { r with
    executed := true
    depositedValue := if transferFunds then 0 else r.depositedValue }

/-- Modelled from the spec: `refresh_liveness(beneficiary, claimed_root,
proof)` — the Anchor program is absent from the sources.  Testator signature
first (§4.3), then `executed == false` else `AlreadyExecuted`; a null/absent
root advances `last_liveness_at` and leaves the stored root untouched; in
debug mode any root is accepted; otherwise the claimed root must equal the
recomputed mixing-digest leaf over
`(testator ‖ last_liveness_at as 8 little-endian bytes)` or the registry's
currently published root, else `InvalidLivenessRoot` (§4.1, §4.2). -/
def refreshLiveness (r : EscrowRecord) (testatorSigned : Bool)
    (claimedRoot : Option (List Nat)) (registryRoot : List Nat) (now : Int) :
    Except EscrowError EscrowRecord :=
  if !testatorSigned then .error .Unauthorized
  else if r.executed then .error .AlreadyExecuted
  else match claimedRoot with
    | none => .ok { r with lastLivenessAt := now }
    | some root =>
      if r.debugMode then
        .ok { r with lastLivenessAt := now, livenessRoot := some root }
      else if root = livenessLeaf r.testator r.lastLivenessAt ∨ root = registryRoot then
        .ok { r with lastLivenessAt := now, livenessRoot := some root }
      else .error .InvalidLivenessRoot

/-- Modelled from the spec: `cancel()` — the Anchor program is absent from the
sources.  Testator signature first (§4.3), then `executed == false` else
`AlreadyExecuted`; on success the record is deleted (`ok ()`). -/
def cancelWill (r : EscrowRecord) (testatorSigned : Bool) : Except EscrowError Unit :=
  if !testatorSigned then .error .Unauthorized
  else if r.executed then .error .AlreadyExecuted
  else .ok ()

/-- The ledger applies an operation atomically: a failed call leaves the
record exactly as it was (§5, §7). -/
def applyResult (r : EscrowRecord) (res : Except EscrowError EscrowRecord) : EscrowRecord :=
  match res with
  | .ok s => s
  | .error _ => r

/-! ## Backend status reader

Translated from `GET /api/liveness/status/:vaultAddress` in the liveness
route: `state = 'Active'; if (executed) 'Executed'; else if (timeSincePing >
timeoutSecs) 'Claimable'; else if (timeSincePing > warningTimeoutSecs)
'Warning'`. -/

inductive VaultState
  | Active
  | Warning
  | Claimable
  | Executed
deriving DecidableEq, Repr

def derivedState (executed : Bool) (lastPing warningTimeoutSecs timeoutSecs now : Int) :
    VaultState :=
  let timeSincePing := now - lastPing
  if executed then .Executed
  else if timeSincePing > timeoutSecs then .Claimable
  else if timeSincePing > warningTimeoutSecs then .Warning
  else .Active

/-- `true` exactly on a successful (`ok`) operation result. -/
def isSuccess {α : Type} (res : Except EscrowError α) : Bool :=
  match res with
  | .ok _ => true
  | .error _ => false

/-- A concrete vault for witnesses and counterexamples: 100-second total
timeout, untouched since time 0, not yet executed. -/
def sampleRecord : EscrowRecord :=
  { testator := List.replicate 32 0
    beneficiary := List.replicate 32 1
    verifier := List.replicate 32 2
    warningTimeout := 50
    totalTimeout := 100
    depositedValue := 1000
    lastLivenessAt := 0
    createdAt := 0
    livenessRoot := none
    executed := false
    debugMode := true }

/-- `sampleRecord` with proof verification enforced (`debug_mode = false`). -/
def prodRecord : EscrowRecord := { sampleRecord with debugMode := false }

/-- `sampleRecord` after execution (`executed = true`). -/
def executedRecord : EscrowRecord := { sampleRecord with executed := true }

/-- **C1 (counterexample)**: the claim says an `execute` call before the
timeout fails with `TransitionNotAllowed` regardless of whether the supplied
signatures are valid; but an execute at `now = 50` (within the 100-second
timeout) whose supplied verifier differs from the stored one fails with
`InvalidVerifier`, a different error code. -/
theorem timeout_gate_counterexample :
    executeInheritance sampleRecord true true (List.replicate 32 9) false 50
      = .error .InvalidVerifier ∧
    EscrowError.InvalidVerifier ≠ EscrowError.TransitionNotAllowed ∧
    sampleRecord.executed = false ∧
    (50 : Int) - sampleRecord.lastLivenessAt ≤ sampleRecord.totalTimeout :=
  ⟨rfl, by decide, rfl, by decide⟩

/-- **C1 (amended)**: for every record with `executed == false`, an `execute`
call carrying both required signatures and the matching verifier identity,
made while `now − last_liveness_at ≤ total_timeout`, fails with
`TransitionNotAllowed` and leaves the record unchanged. -/
theorem timeout_gate_amended (r : EscrowRecord) (sv : List Nat) (tf : Bool) (now : Int)
    (hx : r.executed = false) (hv : sv = r.verifier)
    (ht : now - r.lastLivenessAt ≤ r.totalTimeout) :
    executeInheritance r true true sv tf now = .error .TransitionNotAllowed ∧
    applyResult r (executeInheritance r true true sv tf now) = r := by
  unfold executeInheritance applyResult
  simp [hx, hv, ht]

/-- **C1 (witness)**: the amended timeout gate at the concrete sample vault,
called at `now = 50` with the stored verifier. -/
theorem timeout_gate_amended_witness :
    executeInheritance sampleRecord true true (List.replicate 32 2) false 50
      = .error .TransitionNotAllowed ∧
    applyResult sampleRecord
      (executeInheritance sampleRecord true true (List.replicate 32 2) false 50)
      = sampleRecord :=
  timeout_gate_amended sampleRecord (List.replicate 32 2) false 50 rfl rfl (by decide)

/-- **C2**: `executed == true` is terminal.  No cancel, refresh-liveness or
execute call ever succeeds on such a record, whatever the signer flags and
arguments; the calls made with the required signers (testator for cancel and
refresh, beneficiary plus matching verifier for execute) fail precisely with
`AlreadyExecuted`, and the failed calls leave the record unchanged. -/
theorem executed_terminal (r : EscrowRecord) (hx : r.executed = true) :
    (∀ ts : Bool, isSuccess (cancelWill r ts) = false) ∧
    cancelWill r true = .error .AlreadyExecuted ∧
    (∀ (ts : Bool) (root : Option (List Nat)) (reg : List Nat) (now : Int),
       isSuccess (refreshLiveness r ts root reg now) = false) ∧
    (∀ (root : Option (List Nat)) (reg : List Nat) (now : Int),
       refreshLiveness r true root reg now = .error .AlreadyExecuted ∧
       applyResult r (refreshLiveness r true root reg now) = r) ∧
    (∀ (bs vs : Bool) (sv : List Nat) (tf : Bool) (now : Int),
       isSuccess (executeInheritance r bs vs sv tf now) = false) ∧
    (∀ (tf : Bool) (now : Int),
       executeInheritance r true true r.verifier tf now = .error .AlreadyExecuted ∧
       applyResult r (executeInheritance r true true r.verifier tf now) = r) := by
  refine ⟨fun ts => ?_, ?_, fun ts root reg now => ?_, fun root reg now => ?_,
    fun bs vs sv tf now => ?_, fun tf now => ?_⟩
  · cases ts <;> simp [cancelWill, hx, isSuccess]
  · simp [cancelWill, hx]
  · cases ts <;> simp [refreshLiveness, hx, isSuccess]
  · simp [refreshLiveness, hx, applyResult]
  · cases bs <;> cases vs <;>
      by_cases hsv : sv = r.verifier <;>
      simp [executeInheritance, hx, hsv, isSuccess]
  · simp [executeInheritance, hx, applyResult]

/-- **C2 (witness)**: terminality at the concrete executed sample vault. -/
theorem executed_terminal_witness :
    isSuccess (cancelWill executedRecord true) = false ∧
    cancelWill executedRecord true = .error .AlreadyExecuted ∧
    executeInheritance executedRecord true true executedRecord.verifier true 500
      = .error .AlreadyExecuted ∧
    refreshLiveness executedRecord true none (List.replicate 32 3) 500
      = .error .AlreadyExecuted := by
  have h := executed_terminal executedRecord rfl
  exact ⟨h.1 true, h.2.1, (h.2.2.2.2.2 true 500).1, (h.2.2.2.1 none (List.replicate 32 3) 500).1⟩

/-- **C3**: an `execute` call whose supplied verifier identity differs from
the verifier stored on the record fails with `InvalidVerifier` and leaves the
record unchanged (so it neither sets `executed` nor moves funds), even when
both required signatures are present. -/
theorem execute_invalid_verifier (r : EscrowRecord) (sv : List Nat) (tf : Bool)
    (now : Int) (hv : sv ≠ r.verifier) :
    executeInheritance r true true sv tf now = .error .InvalidVerifier ∧
    applyResult r (executeInheritance r true true sv tf now) = r := by
  unfold executeInheritance applyResult
  simp [hv]

/-- **C3 (witness)**: the invalid-verifier failure at the concrete sample
vault with a wrong verifier key, after the timeout has long elapsed. -/
theorem execute_invalid_verifier_witness :
    executeInheritance sampleRecord true true (List.replicate 32 9) true 500
      = .error .InvalidVerifier ∧
    applyResult sampleRecord
      (executeInheritance sampleRecord true true (List.replicate 32 9) true 500)
      = sampleRecord :=
  execute_invalid_verifier sampleRecord (List.replicate 32 9) true 500 (by decide)

/-- **C4**: with `debug_mode == false` (and a live, testator-signed call), a
`refresh_liveness` with a claimed root succeeds exactly when the root equals
the recomputed mixing-digest leaf over
`(testator ‖ little-endian-64(last_liveness_at))` or the registry's published
root; on mismatch it fails with `InvalidLivenessRoot` leaving the record
unchanged, and with the correctly recomputed leaf it succeeds, stores
`liveness_root = claimed_root` and advances `last_liveness_at`. -/
theorem refresh_liveness_root_validation (r : EscrowRecord) (root reg : List Nat)
    (now : Int) (hd : r.debugMode = false) (hx : r.executed = false) :
    (isSuccess (refreshLiveness r true (some root) reg now) = true ↔
       root = livenessLeaf r.testator r.lastLivenessAt ∨ root = reg) ∧
    (root ≠ livenessLeaf r.testator r.lastLivenessAt → root ≠ reg →
       refreshLiveness r true (some root) reg now = .error .InvalidLivenessRoot ∧
       applyResult r (refreshLiveness r true (some root) reg now) = r) ∧
    (root = livenessLeaf r.testator r.lastLivenessAt →
       refreshLiveness r true (some root) reg now =
         .ok { r with lastLivenessAt := now, livenessRoot := some root }) := by
  by_cases hroot : root = livenessLeaf r.testator r.lastLivenessAt ∨ root = reg
  · refine ⟨?_, ?_, ?_⟩
    · simp [refreshLiveness, hd, hx, hroot, isSuccess]
    · intro h1 h2
      exact absurd hroot (by simp [h1, h2])
    · intro h1
      simp [refreshLiveness, hd, hx, hroot]
  · push_neg at hroot
    refine ⟨?_, ?_, ?_⟩
    · simp [refreshLiveness, hd, hx, hroot.1, hroot.2, isSuccess]
    · intro _ _
      simp [refreshLiveness, hd, hx, hroot.1, hroot.2, applyResult]
    · intro h1
      exact absurd h1 hroot.1

/-- **C4 (witness)**: at the concrete non-debug sample vault, the correctly
recomputed leaf is accepted and stored, and success is equivalent to matching
the leaf or the registry root. -/
theorem refresh_liveness_root_validation_witness :
    (isSuccess (refreshLiveness prodRecord true
        (some (livenessLeaf prodRecord.testator prodRecord.lastLivenessAt))
        (List.replicate 32 7) 5) = true ↔
      livenessLeaf prodRecord.testator prodRecord.lastLivenessAt
          = livenessLeaf prodRecord.testator prodRecord.lastLivenessAt ∨
        livenessLeaf prodRecord.testator prodRecord.lastLivenessAt
          = List.replicate 32 7) ∧
    refreshLiveness prodRecord true
        (some (livenessLeaf prodRecord.testator prodRecord.lastLivenessAt))
        (List.replicate 32 7) 5 =
      .ok { prodRecord with
        lastLivenessAt := 5
        livenessRoot := some (livenessLeaf prodRecord.testator prodRecord.lastLivenessAt) } := by
  have h := refresh_liveness_root_validation prodRecord
    (livenessLeaf prodRecord.testator prodRecord.lastLivenessAt)
    (List.replicate 32 7) 5 rfl rfl
  exact ⟨h.1, h.2.2 rfl⟩

/-- The display-state rule exactly as the claim words it: `Executed` when the
flag is set; otherwise `Claimable` iff `now − last_ping > total_timeout`,
`Warning` iff `warning_timeout < now − last_ping ≤ total_timeout`, and
`Active` iff `now − last_ping ≤ warning_timeout`. -/
def statusClaimRule (executed : Bool) (lastPing warning total now : Int) : Prop :=
  (executed = true → derivedState executed lastPing warning total now = .Executed) ∧
  (executed = false →
    ((derivedState executed lastPing warning total now = .Claimable ↔
        now - lastPing > total) ∧
     (derivedState executed lastPing warning total now = .Warning ↔
        warning < now - lastPing ∧ now - lastPing ≤ total) ∧
     (derivedState executed lastPing warning total now = .Active ↔
        now - lastPing ≤ warning)))

/-- **C7 (counterexample)**: nothing forbids `warning_timeout >
total_timeout`; for such a record (`warning = 10`, `total = 5`) at
`now − last_ping = 7` the backend reports `Claimable` (the code tests the
total-timeout branch first), while the claim's rule would demand `Active`
(since `7 ≤ warning_timeout`), so the claimed biconditional fails. -/
theorem derived_state_counterexample :
    derivedState false 0 10 5 7 = .Claimable ∧
    ¬ statusClaimRule false 0 10 5 7 := by
  constructor
  · rfl
  · unfold statusClaimRule derivedState
    decide

/-- **C7 (amended)**: for every record with `warning_timeout ≤ total_timeout`
(the intended configuration; the relation is not machine-enforced) and every
clock value, the backend status read derives the display state exactly by the
claimed rule: `Executed` if the flag is set, otherwise `Claimable` iff
`Δ > total`, `Warning` iff `warning < Δ ≤ total`, `Active` iff `Δ ≤ warning`.
When `warning_timeout > total_timeout` the code classifies by precedence, so a
record with `total < Δ ≤ warning` reads `Claimable`, not `Active`. -/
theorem derived_state_amended (executed : Bool) (lastPing warning total now : Int)
    (h : warning ≤ total) : statusClaimRule executed lastPing warning total now := by
  unfold statusClaimRule derivedState
  cases executed
  · simp only [Bool.false_eq_true, false_implies, true_and, if_false]
    refine fun _ => ⟨?_, ?_, ?_⟩ <;> split_ifs with h1 h2 <;>
      simp_all <;> omega
  · simp

/-- **C7 (witness)**: the amended rule at a concrete active record
(`warning = 50 ≤ total = 100`, `Δ = 7`). -/
theorem derived_state_amended_witness : statusClaimRule false 0 50 100 7 :=
  derived_state_amended false 0 50 100 7 (by decide)

/-! ## Backend create path

Translated from `POST /api/inheritance/create` in the inheritance route:
the instruction-data builder hashes beneficiary PII with SHA-256 before it is
sent on-chain, resolves the verifier key, pads the content ids, and
concatenates the Anchor instruction payload.  SHA-256 itself and base58 /
public-key decoding are external library primitives, taken as parameters. -/

def utf8Bytes (s : String) : List Nat := s.toUTF8.toList.map (fun b => b.toNat)

/-- `calculateDiscriminator`: the first 8 bytes of SHA-256 of
`"global:" ++ name`. -/
def anchorDiscriminator (sha : List Nat → List Nat) (name : String) : List Nat :=
  (sha (utf8Bytes ("global:" ++ name))).take 8

/-- `Buffer.from(x).slice(0, 32)` followed by zero-padding to 32 bytes. -/
def padTo32 (l : List Nat) : List Nat :=
  let t := l.take 32
  t ++ List.replicate (32 - t.length) 0

/-- The e-mail digest placed in the instruction data: SHA-256 of the
lowercased, trimmed e-mail when one is supplied (JavaScript truthiness: an
absent or empty string yields a zero buffer). -/
def emailHashBuf (sha : List Nat → List Nat) (email : Option String) : List Nat :=
  match email with
  | some e => if e = "" then List.replicate 32 0 else sha (utf8Bytes (e.toLower.trim))
  | none => List.replicate 32 0

/-- The document-id digest: SHA-256 of the trimmed document id when one is
supplied, else a zero buffer. -/
def documentIdHashBuf (sha : List Nat → List Nat) (docId : Option String) : List Nat :=
  match docId with
  | some d => if d = "" then List.replicate 32 0 else sha (utf8Bytes d.trim)
  | none => List.replicate 32 0

def nat32LEBytes (n : Nat) : List Nat :=
  (List.range 4).map fun i => (n >>> (8 * i)) &&& 0xFF

def nat64LEBytes (n : Nat) : List Nat :=
  (List.range 8).map fun i => (n >>> (8 * i)) &&& 0xFF

/-- The request body of `POST /api/inheritance/create` (fields the builder
reads; the testator keypair is derived separately from the mnemonic). -/
structure CreateRequest where
  beneficiaryPk : List Nat
  verifierAddress : Option String
  beneficiaryEmail : Option String
  beneficiaryDocumentId : Option String
  beneficiaryIdentityHash : Option (List Nat)
  cid : Option (List Nat)
  cidValidator : Option (List Nat)
  warningTimeoutSecs : Option Int
  timeoutSecs : Option Int
  lamports : Option Nat
  encryptedPassword : Option String
  unwrappedKey : Option (List Nat)
  isDebug : Bool

/-- `verifierAddress ? new PublicKey(verifierAddress) :
testatorKeypair.publicKey` (an absent or empty `verifierAddress` falls back to
the testator's own public key). -/
def createVerifierPubkey (decode : String → List Nat) (testatorPk : List Nat)
    (verifierAddress : Option String) : List Nat :=
  match verifierAddress with
  | some s => if s = "" then testatorPk else decode s
  | none => testatorPk

def encryptedPasswordBytes (req : CreateRequest) : List Nat :=
  match req.encryptedPassword with
  | some p => if p = "" then [] else utf8Bytes p
  | none => []

/-- The instruction payload after the discriminator, beneficiary and verifier
keys: identity hash, e-mail hash, document-id hash, padded cid and
cid-validator, the two timeouts (JavaScript `|| 60` / `|| 180` defaults), the
lamports (`|| 100_000_000`), the length-prefixed encrypted password, the
unwrapped key and the debug flag. -/
def initRestData (sha : List Nat → List Nat) (req : CreateRequest) : List Nat :=
  (match req.beneficiaryIdentityHash with
    | some h => h
    | none => List.replicate 32 0) ++
  emailHashBuf sha req.beneficiaryEmail ++
  documentIdHashBuf sha req.beneficiaryDocumentId ++
  padTo32 (match req.cid with | some c => c | none => List.replicate 32 0) ++
  padTo32 (match req.cidValidator with | some c => c | none => List.replicate 32 0) ++
  int64LEBytes (match req.warningTimeoutSecs with
    | some w => if w = 0 then 60 else w
    | none => 60) ++
  int64LEBytes (match req.timeoutSecs with
    | some t => if t = 0 then 180 else t
    | none => 180) ++
  nat64LEBytes (match req.lamports with
    | some l => if l = 0 then 100000000 else l
    | none => 100000000) ++
  nat32LEBytes (encryptedPasswordBytes req).length ++
  encryptedPasswordBytes req ++
  (match req.unwrappedKey with | some k => k | none => List.replicate 32 0) ++
  [if req.isDebug then 1 else 0]

/-- The full `init_inheritance` instruction data built by the create route. -/
def initInheritanceData (sha : List Nat → List Nat) (decode : String → List Nat)
    (testatorPk : List Nat) (req : CreateRequest) : List Nat :=
  anchorDiscriminator sha "init_inheritance" ++
  req.beneficiaryPk ++
  createVerifierPubkey decode testatorPk req.verifierAddress ++
  initRestData sha req

/-- **C8**: the create call stores only fixed-size digests of the
beneficiary's PII, never the plaintext.  The e-mail digest field is SHA-256
of the lowercased trimmed e-mail and appears verbatim inside the record
bytes; and the bytes depend on the e-mail and document id only through those
digests — two requests whose PII agree up to digest produce identical record
bytes, so no read path over the stored record can recover (or even
distinguish) the plaintext. -/
theorem pii_digest_noninterference (sha : List Nat → List Nat)
    (decode : String → List Nat) (tPk : List Nat) (req : CreateRequest)
    (e1 e2 d1 d2 : String)
    (he1 : e1 ≠ "") (he2 : e2 ≠ "") (hd1 : d1 ≠ "") (hd2 : d2 ≠ "")
    (hemail : sha (utf8Bytes (e1.toLower.trim)) = sha (utf8Bytes (e2.toLower.trim)))
    (hdoc : sha (utf8Bytes d1.trim) = sha (utf8Bytes d2.trim)) :
    emailHashBuf sha (some e1) = sha (utf8Bytes (e1.toLower.trim)) ∧
    List.IsInfix (sha (utf8Bytes (e1.toLower.trim)))
      (initInheritanceData sha decode tPk
        { req with beneficiaryEmail := some e1, beneficiaryDocumentId := some d1 }) ∧
    initInheritanceData sha decode tPk
        { req with beneficiaryEmail := some e1, beneficiaryDocumentId := some d1 }
      = initInheritanceData sha decode tPk
        { req with beneficiaryEmail := some e2, beneficiaryDocumentId := some d2 } ∧
    ∀ {α : Type} (reader : List Nat → α),
      reader (initInheritanceData sha decode tPk
        { req with beneficiaryEmail := some e1, beneficiaryDocumentId := some d1 })
        = reader (initInheritanceData sha decode tPk
          { req with beneficiaryEmail := some e2, beneficiaryDocumentId := some d2 }) := by
  have hbuf : emailHashBuf sha (some e1) = sha (utf8Bytes (e1.toLower.trim)) := by
    simp [emailHashBuf, he1]
  have heq : initInheritanceData sha decode tPk
      { req with beneficiaryEmail := some e1, beneficiaryDocumentId := some d1 }
      = initInheritanceData sha decode tPk
      { req with beneficiaryEmail := some e2, beneficiaryDocumentId := some d2 } := by
    simp only [initInheritanceData, initRestData, emailHashBuf, documentIdHashBuf,
      encryptedPasswordBytes]
    simp [he1, he2, hd1, hd2, hemail, hdoc]
  refine ⟨hbuf, ?_, heq, fun reader => congrArg reader heq⟩
  · show ∃ s t, s ++ sha (utf8Bytes (e1.toLower.trim)) ++ t
        = initInheritanceData sha decode tPk
          { req with beneficiaryEmail := some e1, beneficiaryDocumentId := some d1 }
    refine ⟨anchorDiscriminator sha "init_inheritance" ++ req.beneficiaryPk ++
        createVerifierPubkey decode tPk req.verifierAddress ++
        (match req.beneficiaryIdentityHash with
          | some h => h
          | none => List.replicate 32 0),
      documentIdHashBuf sha (some d1) ++
        padTo32 (match req.cid with | some c => c | none => List.replicate 32 0) ++
        padTo32 (match req.cidValidator with | some c => c | none => List.replicate 32 0) ++
        int64LEBytes (match req.warningTimeoutSecs with
          | some w => if w = 0 then 60 else w
          | none => 60) ++
        int64LEBytes (match req.timeoutSecs with
          | some t => if t = 0 then 180 else t
          | none => 180) ++
        nat64LEBytes (match req.lamports with
          | some l => if l = 0 then 100000000 else l
          | none => 100000000) ++
        nat32LEBytes (encryptedPasswordBytes
          { req with beneficiaryEmail := some e1, beneficiaryDocumentId := some d1 }).length ++
        encryptedPasswordBytes
          { req with beneficiaryEmail := some e1, beneficiaryDocumentId := some d1 } ++
        (match req.unwrappedKey with | some k => k | none => List.replicate 32 0) ++
        [if req.isDebug then 1 else 0], ?_⟩
    simp [initInheritanceData, initRestData, emailHashBuf, he1, List.append_assoc]

/-- A concrete request for witnesses: beneficiary key of 32 one-bytes,
everything else defaulted. -/
def sampleRequest : CreateRequest :=
  { beneficiaryPk := List.replicate 32 1
    verifierAddress := none
    beneficiaryEmail := none
    beneficiaryDocumentId := none
    beneficiaryIdentityHash := none
    cid := none
    cidValidator := none
    warningTimeoutSecs := none
    timeoutSecs := none
    lamports := none
    encryptedPassword := none
    unwrappedKey := none
    isDebug := true }

/-- **C8 (witness)**: the noninterference theorem at a concrete hash function
and concrete PII (`"a"` and `"x"`), whose digest-equality hypotheses hold
definitionally. -/
theorem pii_digest_noninterference_witness :
    emailHashBuf (fun l => l) (some "a") = utf8Bytes ("a".toLower.trim) ∧
    List.IsInfix (utf8Bytes ("a".toLower.trim))
      (initInheritanceData (fun l => l) (fun _ => []) (List.replicate 32 4)
        { sampleRequest with
          beneficiaryEmail := some "a", beneficiaryDocumentId := some "x" }) := by
  have h := pii_digest_noninterference (fun l => l) (fun _ => [])
    (List.replicate 32 4) sampleRequest "a" "a" "x" "x"
    (by decide) (by decide) (by decide) (by decide) rfl rfl
  exact ⟨h.1, h.2.1⟩

/-- **C9**: a create request that omits `verifierAddress` gets the testator's
own public key as the record's verifier — the verifier slot of the
instruction data is the testator key, so the two-party execute authorization
degenerates to the testator's key serving as the verifier. -/
theorem default_verifier_is_testator (sha : List Nat → List Nat)
    (decode : String → List Nat) (tPk : List Nat) (req : CreateRequest)
    (h : req.verifierAddress = none) :
    createVerifierPubkey decode tPk req.verifierAddress = tPk ∧
    initInheritanceData sha decode tPk req
      = anchorDiscriminator sha "init_inheritance" ++ req.beneficiaryPk ++ tPk ++
        initRestData sha req := by
  simp [createVerifierPubkey, h, initInheritanceData]

/-- **C9 (witness)**: the defaulting at the concrete sample request, which
omits `verifierAddress`. -/
theorem default_verifier_is_testator_witness :
    createVerifierPubkey (fun _ => []) (List.replicate 32 4)
        sampleRequest.verifierAddress = List.replicate 32 4 ∧
    initInheritanceData (fun l => l) (fun _ => []) (List.replicate 32 4) sampleRequest
      = anchorDiscriminator (fun l => l) "init_inheritance" ++
        sampleRequest.beneficiaryPk ++ List.replicate 32 4 ++
        initRestData (fun l => l) sampleRequest :=
  default_verifier_is_testator (fun l => l) (fun _ => [])
    (List.replicate 32 4) sampleRequest rfl

/-! ## Keypair derivation

Both the inheritance route and the liveness route define their own copy of
`deriveKeypairFromMnemonic`.  The cryptographic library primitives (base58
decoding, `Keypair.fromSecretKey`, `bip39.mnemonicToSeedSync`, hex encoding,
`derivePath(...).key`, `Keypair.fromSeed`) are taken as parameters; a base58
decoding failure (the JavaScript `catch`) is `none`. -/

structure KeyDerivationPrims (α : Type) where
  bs58Decode : String → Option (List Nat)
  fromSecretKey : List Nat → α
  mnemonicToSeed : String → List Nat
  seedToHex : List Nat → String
  derivePathKey : String → String → List Nat
  fromSeed : List Nat → α

/-- The Android-compatible BIP44 Solana path `m/44'/501'/0'/0'`. -/
def solanaDerivationPath : String := "m/44\x27/501\x27/0\x27/0\x27"

/-- Translated from `deriveKeypairFromMnemonic` in the inheritance route:
base58-decode the input and use it as a raw secret key when it is exactly 64
bytes; otherwise treat the trimmed input as a BIP39 mnemonic and derive at
the Solana BIP44 path. -/
def deriveKeypairInheritanceRoute {α : Type} (P : KeyDerivationPrims α)
    (input : String) : α :=
  match P.bs58Decode input with
  | some decoded =>
    if decoded.length = 64 then P.fromSecretKey decoded
    else P.fromSeed (P.derivePathKey solanaDerivationPath
      (P.seedToHex (P.mnemonicToSeed input.trim)))
  | none =>
    P.fromSeed (P.derivePathKey solanaDerivationPath
      (P.seedToHex (P.mnemonicToSeed input.trim)))

/-- Translated from `deriveKeypairFromMnemonic` in the liveness route: check
for a base58 private key of exactly 64 bytes first, otherwise derive from the
trimmed mnemonic at the Solana BIP44 path. -/
def deriveKeypairLivenessRoute {α : Type} (P : KeyDerivationPrims α)
    (input : String) : α :=
  match P.bs58Decode input with
  | some decoded =>
    if decoded.length = 64 then P.fromSecretKey decoded
    else P.fromSeed (P.derivePathKey solanaDerivationPath
      (P.seedToHex (P.mnemonicToSeed input.trim)))
  | none =>
    P.fromSeed (P.derivePathKey solanaDerivationPath
      (P.seedToHex (P.mnemonicToSeed input.trim)))

/-- **C10**: the two route-local copies of `deriveKeypairFromMnemonic` are
extensionally equal, and both interpret the input as a raw 64-byte
base58-decoded secret key when it decodes to exactly 64 bytes and otherwise
as a BIP39 mnemonic derived at `m/44'/501'/0'/0'`, the secret-key
interpretation taking precedence. -/
theorem derive_keypair_copies_equal {α : Type} (P : KeyDerivationPrims α)
    (input : String) :
    deriveKeypairInheritanceRoute P input = deriveKeypairLivenessRoute P input ∧
    (∀ d, P.bs58Decode input = some d → d.length = 64 →
       deriveKeypairInheritanceRoute P input = P.fromSecretKey d) ∧
    (∀ d, P.bs58Decode input = some d → d.length ≠ 64 →
       deriveKeypairInheritanceRoute P input
         = P.fromSeed (P.derivePathKey solanaDerivationPath
             (P.seedToHex (P.mnemonicToSeed input.trim)))) ∧
    (P.bs58Decode input = none →
       deriveKeypairInheritanceRoute P input
         = P.fromSeed (P.derivePathKey solanaDerivationPath
             (P.seedToHex (P.mnemonicToSeed input.trim)))) := by
  refine ⟨rfl, fun d hd hlen => ?_, fun d hd hlen => ?_, fun hd => ?_⟩
  · unfold deriveKeypairInheritanceRoute
    rw [hd]
    simp [hlen]
  · unfold deriveKeypairInheritanceRoute
    rw [hd]
    simp [hlen]
  · unfold deriveKeypairInheritanceRoute
    rw [hd]

/-- Concrete primitives for the keypair-derivation witness: base58 decoding
always yields 64 zero bytes, and the two constructors are distinguishable. -/
def witnessPrims : KeyDerivationPrims Nat :=
  { bs58Decode := fun _ => some (List.replicate 64 0)
    fromSecretKey := fun l => l.length
    mnemonicToSeed := fun _ => []
    seedToHex := fun _ => ""
    derivePathKey := fun _ _ => [1]
    fromSeed := fun l => 100 + l.length }

/-- **C10 (witness)**: the two copies agree at concrete primitives and input,
and take the raw-secret-key branch when the input decodes to 64 bytes. -/
theorem derive_keypair_copies_equal_witness :
    deriveKeypairInheritanceRoute witnessPrims "key"
      = deriveKeypairLivenessRoute witnessPrims "key" ∧
    deriveKeypairInheritanceRoute witnessPrims "key"
      = witnessPrims.fromSecretKey (List.replicate 64 0) :=
  ⟨(derive_keypair_copies_equal witnessPrims "key").1,
    (derive_keypair_copies_equal witnessPrims "key").2.1
      (List.replicate 64 0) rfl (by decide)⟩

end ZelfLegacy
